import Mathlib

/-!
Verification of the DKMV editor-extension frontend (host controller in
`src/extension.ts`, display surface in `src/webview/App.tsx`).

JavaScript runtime values that flow through the untyped parts of the code
(score payloads, JSON response bodies) are modelled by the inductive type
`JSVal`; JS numbers are modelled as rationals (the score pipeline only ever
performs exact comparisons, scaling by 100, clamping and rounding, so the
rational model is faithful on every value the claims mention; `NaN` is
represented by `Option.none` results of the numeric coercion).
-/

/-- A JavaScript value as it appears in the untyped score / JSON pipeline. -/
inductive JSVal where
  | null
  | undef
  | bool (b : Bool)
  | num (q : ℚ)
  | str (s : String)
  | arr (elems : List JSVal)
  | obj (fields : List (String × JSVal))

/-- JS truthiness: `null`, `undefined`, `false`, `0`, `""` are falsy,
objects and arrays are always truthy. -/
def jsTruthy : JSVal → Bool
  | JSVal.null => false
  | JSVal.undef => false
  | JSVal.bool b => b
  | JSVal.num q => if q = 0 then false else true
  | JSVal.str s => if s = "" then false else true
  | JSVal.arr _ => true
  | JSVal.obj _ => true

/-- Model of `String.prototype.trim` (whitespace stripping on both ends). -/
def jsTrim (s : String) : String :=
  String.mk (((s.toList.dropWhile Char.isWhitespace).reverse.dropWhile Char.isWhitespace).reverse)

/-- Numeric value of a list of decimal digit characters. -/
def decDigitsVal (cs : List Char) : ℕ :=
  cs.foldl (fun a c => 10 * a + (c.toNat - 48)) 0

/-- Parse an unsigned decimal numeral `digits`, `digits.digits` or `.digits`
(the fragment of the ECMAScript StrNumericLiteral grammar exercised by this
code base; exponents, hex and Infinity literals are out of scope and map to
`none`, i.e. NaN). -/
def parseUnsigned (cs : List Char) : Option ℚ :=
  let intPart := cs.takeWhile Char.isDigit
  let rest := cs.dropWhile Char.isDigit
  match rest with
  | [] => if intPart.isEmpty then none else some (decDigitsVal intPart : ℚ)
  | c :: fracPart =>
      if c = '.' ∧ fracPart.all Char.isDigit ∧ (¬ intPart.isEmpty ∨ ¬ fracPart.isEmpty) then
        some ((decDigitsVal intPart : ℚ) + (decDigitsVal fracPart : ℚ) / (10 ^ fracPart.length))
      else none

/-- Model of `Number(string)`: trim, empty string is 0, otherwise an optional
sign followed by a decimal numeral; `none` models NaN. -/
def jsParseNumber (s : String) : Option ℚ :=
  match (jsTrim s).toList with
  | [] => some 0
  | '+' :: rest => parseUnsigned rest
  | '-' :: rest => (parseUnsigned rest).map (fun q => -q)
  | cs => parseUnsigned cs

/-- Model of the `Number(v)` coercion used by `clampScore` on non-number
input; `none` models NaN.  Flat singleton arrays coerce through their single
element (JS stringifies the array first); plain objects coerce to NaN. -/
def jsToNumber : JSVal → Option ℚ
  | JSVal.num q => some q
  | JSVal.str s => jsParseNumber s
  | JSVal.bool b => some (if b then 1 else 0)
  | JSVal.null => some 0
  | JSVal.undef => none
  | JSVal.obj _ => none
  | JSVal.arr [] => some 0
  | JSVal.arr [JSVal.num q] => some q
  | JSVal.arr [JSVal.str s] => jsParseNumber s
  | JSVal.arr [JSVal.null] => some 0
  | JSVal.arr [JSVal.undef] => some 0
  | JSVal.arr _ => none

/-- Model of `Math.round`: round half toward positive infinity. -/
def jsRound (q : ℚ) : ℤ := ⌊q + 1 / 2⌋

/-- `clampScore` from `App.tsx`: coerce non-numbers via `Number` (NaN to 0),
scale values inside `[0,1]` by 100, clamp to `[0,100]`, then `Math.round`. -/
def clampScore (v : JSVal) : ℤ :=
  match jsToNumber v with
  | none => 0
  | some s0 =>
      let s1 := if 0 ≤ s0 ∧ s0 ≤ 1 then s0 * 100 else s0
      let s2 := if s1 < 0 then 0 else s1
      let s3 := if 100 < s2 then 100 else s2
      jsRound s3

/-- `getScoreLabel` from `App.tsx`: qualitative label and color for a score. -/
def getScoreLabel (score : ℤ) : String × String :=
  if 90 ≤ score then ("Excellent", "#a3e635")
  else if 70 ≤ score then ("Good", "#4ade80")
  else if 40 ≤ score then ("Okay", "#fbbf24")
  else if 0 < score then ("Needs Work", "#f97373")
  else ("—", "#6b7280")

/-- Rounding a nonnegative rational gives a nonnegative integer. -/
theorem jsRound_nonneg (q : ℚ) (h : 0 ≤ q) : 0 ≤ jsRound q := by
  rw [jsRound, Int.le_floor]
  push_cast
  linarith

/-- Rounding a rational bounded by 100 gives an integer bounded by 100. -/
theorem jsRound_le_100 (q : ℚ) (h : q ≤ 100) : jsRound q ≤ 100 := by
  have h101 : jsRound q < 101 := by
    rw [jsRound, Int.floor_lt]
    push_cast
    linarith
  omega

/-- Rounding an integer-valued rational is the identity. -/
theorem jsRound_intCast (n : ℤ) : jsRound (n : ℚ) = n := by
  rw [jsRound, Int.floor_int_add]
  norm_num

/-- Rounding is monotone. -/
theorem jsRound_mono (q r : ℚ) (h : q ≤ r) : jsRound q ≤ jsRound r :=
  Int.floor_mono (by linarith)

/-- The clamped score is always in the integer range `[0, 100]`. -/
theorem clampScore_bounds (v : JSVal) : 0 ≤ clampScore v ∧ clampScore v ≤ 100 := by
  rw [clampScore]
  cases h : jsToNumber v with
  | none => norm_num
  | some s0 =>
      simp only
      split_ifs with h1 h2 h3 h4 h5 <;>
        exact ⟨jsRound_nonneg _ (by linarith), jsRound_le_100 _ (by linarith)⟩

/-- C1: every raw score normalizes to an integer in `[0,100]`; a failed
numeric coercion (NaN) yields 0; a numeric value inside `[0,1]` is scaled by
100 before clamping and rounding; and the five concrete examples from the
spec hold. -/
theorem clampScore_spec :
    (∀ v : JSVal, 0 ≤ clampScore v ∧ clampScore v ≤ 100) ∧
    (∀ v : JSVal, jsToNumber v = none → clampScore v = 0) ∧
    (∀ q : ℚ, 0 ≤ q → q ≤ 1 → clampScore (JSVal.num q) = jsRound (q * 100)) ∧
    clampScore (JSVal.num (17 / 20)) = 85 ∧
    clampScore (JSVal.num 85) = 85 ∧
    clampScore (JSVal.num 150) = 100 ∧
    clampScore (JSVal.num (-5)) = 0 ∧
    clampScore (JSVal.str "not a number") = 0 := by
  refine ⟨clampScore_bounds, ?_, ?_, ?_, ?_, ?_, ?_, ?_⟩
  · intro v h
    rw [clampScore, h]
  · intro q h0 h1
    have hlo : ¬ q * 100 < 0 := not_lt.2 (by linarith)
    have hhi : ¬ 100 < q * 100 := not_lt.2 (by linarith)
    rw [clampScore]
    simp only [jsToNumber]
    rw [if_pos (show 0 ≤ q ∧ q ≤ 1 from ⟨h0, h1⟩), if_neg hlo, if_neg hhi]
  · norm_num [clampScore, jsToNumber, jsRound, Int.floor_eq_iff]
  · norm_num [clampScore, jsToNumber, jsRound, Int.floor_eq_iff]
  · norm_num [clampScore, jsToNumber, jsRound, Int.floor_eq_iff]
  · norm_num [clampScore, jsToNumber, jsRound, Int.floor_eq_iff]
  · have h : jsToNumber (JSVal.str "not a number") = none := by decide
    rw [clampScore, h]

/-- Witness for C1: the quantified parts of `clampScore_spec` evaluated at
concrete inputs. -/
theorem clampScore_spec_witness :
    (0 ≤ clampScore JSVal.undef ∧ clampScore JSVal.undef ≤ 100) ∧
    clampScore JSVal.undef = 0 ∧
    clampScore (JSVal.num (1 / 2)) = jsRound (1 / 2 * 100) := by
  refine ⟨clampScore_spec.1 JSVal.undef, ?_, ?_⟩
  · exact clampScore_spec.2.1 JSVal.undef rfl
  · exact clampScore_spec.2.2.1 (1 / 2) (by norm_num) (by norm_num)

/-- C9: the qualitative score labels are characterized exactly by the
threshold intervals, and the seven concrete examples from the spec hold. -/
theorem getScoreLabel_spec :
    (∀ score : ℤ,
      ((getScoreLabel score).1 = "Excellent" ↔ 90 ≤ score) ∧
      ((getScoreLabel score).1 = "Good" ↔ 70 ≤ score ∧ score < 90) ∧
      ((getScoreLabel score).1 = "Okay" ↔ 40 ≤ score ∧ score < 70) ∧
      ((getScoreLabel score).1 = "Needs Work" ↔ 0 < score ∧ score < 40) ∧
      ((getScoreLabel score).1 = "—" ↔ score ≤ 0)) ∧
    (getScoreLabel 90).1 = "Excellent" ∧ (getScoreLabel 89).1 = "Good" ∧
    (getScoreLabel 70).1 = "Good" ∧ (getScoreLabel 69).1 = "Okay" ∧
    (getScoreLabel 40).1 = "Okay" ∧ (getScoreLabel 39).1 = "Needs Work" ∧
    (getScoreLabel 0).1 = "—" := by
  refine ⟨?_, by decide, by decide, by decide, by decide, by decide, by decide, by decide⟩
  intro score
  unfold getScoreLabel
  split_ifs with h1 h2 h3 h4 <;> refine ⟨?_, ?_, ?_, ?_, ?_⟩ <;> simp <;> omega

/-- Last-wins field lookup on a JS object (later duplicate keys shadow
earlier ones, as in parsed JSON); property access on a non-object or a
missing key yields `undefined`. -/
def jsGet (v : JSVal) (key : String) : JSVal :=
  match v with
  | JSVal.obj fields =>
      fields.foldl (fun acc kv => if kv.1 = key then some kv.2 else acc) none
        |>.getD JSVal.undef
  | _ => JSVal.undef

/-- The four category scores displayed by the webview. -/
structure ScoreCategories where
  bug : ℤ
  maintainability : ℤ
  style : ℤ
  security : ℤ
deriving DecidableEq

/-- `EMPTY_CATEGORIES` from `App.tsx`. -/
def EMPTY_CATEGORIES : ScoreCategories :=
  { bug := 0, maintainability := 0, style := 0, security := 0 }

/-- The two tabs of the display surface. -/
inductive TabId where
  | code
  | result
deriving DecidableEq

/-- The payload mode tag of a `NEW_CODE` message. -/
inductive CodeMode where
  | selection
  | document
deriving DecidableEq

/-- The React state of the display surface (`App.tsx` `useState` hooks).
The transient highlight flags are modelled as set by the flash helpers;
the later timeout that clears them is not modelled (no claim depends on
it). -/
structure DisplayState where
  code : String
  filePath : String
  languageId : String
  mode : Option CodeMode
  isLoading : Bool
  activeTab : TabId
  resultMessage : String
  resultData : JSVal
  codeHighlight : Bool
  resultHighlight : Bool
  hasNewResult : Bool
  isError : Bool
  selectedModel : String
  modelError : Bool
  displayOverallScore : ℤ
  displayCategoryScores : ScoreCategories

/-- The initial display state (the `useState` initializers in `App.tsx`). -/
def initState : DisplayState :=
  { code := "", filePath := "", languageId := "plaintext", mode := none,
    isLoading := false, activeTab := TabId.code,
    resultMessage := "분석 결과가 이 영역에 표시됩니다.",
    resultData := JSVal.null, codeHighlight := false, resultHighlight := false,
    hasNewResult := false, isError := false, selectedModel := "",
    modelError := false, displayOverallScore := 0,
    displayCategoryScores := EMPTY_CATEGORIES }

/-- Messages received by the display surface from the host controller. -/
inductive IncomingMessage where
  | newCode (code fileName filePath languageId : String) (mode : CodeMode)
  | analyzeProgress (payload : String)
  | analyzeResult (payload : JSVal)
  | analyzeError (payload : String)
  | otherKind

/-- The window `message` handler of `App.tsx` (the `useEffect` registered
once): one state update per incoming message; unknown kinds are a no-op. -/
def handleMessage (s : DisplayState) (m : IncomingMessage) : DisplayState :=
  match m with
  | IncomingMessage.newCode code _fileName filePath languageId mode =>
      { s with code := code, filePath := filePath, languageId := languageId,
               mode := some mode, isLoading := false, resultData := JSVal.null,
               resultMessage := "코드를 받았습니다. 모델을 선택한 뒤 [분석] 버튼 또는 Ctrl+Enter로 리뷰를 시작하세요.",
               displayOverallScore := 0,
               displayCategoryScores := EMPTY_CATEGORIES,
               activeTab := TabId.code, codeHighlight := true,
               hasNewResult := false, isError := false }
  | IncomingMessage.analyzeProgress payload =>
      { s with isLoading := true,
               resultMessage := if payload = "" then "모델이 코드를 읽고 있습니다..." else payload,
               activeTab := TabId.result, isError := false }
  | IncomingMessage.analyzeError payload =>
      { s with isLoading := false, resultData := JSVal.null,
               resultMessage := "오류 발생: " ++ payload,
               displayOverallScore := 0,
               displayCategoryScores := EMPTY_CATEGORIES,
               activeTab := TabId.result, isError := true,
               hasNewResult := false }
  | IncomingMessage.analyzeResult payload =>
      { s with isLoading := false, resultData := payload,
               resultMessage := "분석이 완료되었습니다.",
               activeTab := TabId.result, resultHighlight := true,
               hasNewResult := true, isError := false }
  | IncomingMessage.otherKind => s

/-- Messages the display surface can post to the host controller.  The
protocol also names `REQUEST_FULL_DOCUMENT`; `App.tsx` declares no sender
for it, which is what claim C10 is about. -/
inductive OutMessage where
  | requestAnalyze (code filePath languageId model : String)
  | requestFullDocument
deriving DecidableEq

/-- `handleAnalyze` from `App.tsx`: validate, then emit `REQUEST_ANALYZE`.
`vscodeAvailable` models whether `acquireVsCodeApi` returned an API object. -/
def handleAnalyze (vscodeAvailable : Bool) (s : DisplayState) :
    DisplayState × List OutMessage :=
  if jsTrim s.code = "" then
    ({ s with resultMessage := "분석할 코드가 없습니다. VS Code에서 코드를 선택 후 실행하거나 왼쪽에 코드를 붙여넣어 주세요.",
              resultData := JSVal.null, displayOverallScore := 0,
              displayCategoryScores := EMPTY_CATEGORIES, isError := false,
              hasNewResult := false }, [])
  else if s.selectedModel = "" then
    ({ s with resultMessage := "사용할 모델을 먼저 선택해 주세요.",
              resultData := JSVal.null, displayOverallScore := 0,
              displayCategoryScores := EMPTY_CATEGORIES, isError := true,
              hasNewResult := false, modelError := true }, [])
  else if vscodeAvailable = false then
    ({ s with resultMessage := "VS Code API를 사용할 수 없습니다.",
              resultData := JSVal.null, displayOverallScore := 0,
              displayCategoryScores := EMPTY_CATEGORIES, isError := true,
              hasNewResult := false }, [])
  else
    ({ s with isLoading := true, resultMessage := "리뷰 요청을 준비 중입니다...",
              isError := false, hasNewResult := false,
              activeTab := TabId.result },
     [OutMessage.requestAnalyze s.code s.filePath s.languageId s.selectedModel])

/-- `handleLoadFullDocument` from `App.tsx`: only a status notice, no
message is posted. -/
def handleLoadFullDocument (s : DisplayState) : DisplayState × List OutMessage :=
  ({ s with resultMessage := "현재 파일 전체 가져오기는 추후 구현 예정입니다.",
            isError := false, hasNewResult := false }, [])

/-- Exactly one of result data present (JS-truthy) and the error flag. -/
def exactlyOneActive (s : DisplayState) : Prop :=
  (jsTruthy s.resultData = true ∧ s.isError = false) ∨
  (jsTruthy s.resultData = false ∧ s.isError = true)

/-- C4: from any state, `NEW_CODE` resets both displayed scores to zero,
clears the result data and the error flag, switches the active tab to the
code view, and replaces the code buffer with the new payload. -/
theorem newCode_spec :
    ∀ (s : DisplayState) (code fileName filePath languageId : String)
      (mode : CodeMode),
      (handleMessage s (IncomingMessage.newCode code fileName filePath languageId mode)).displayOverallScore = 0 ∧
      (handleMessage s (IncomingMessage.newCode code fileName filePath languageId mode)).displayCategoryScores = EMPTY_CATEGORIES ∧
      (handleMessage s (IncomingMessage.newCode code fileName filePath languageId mode)).resultData = JSVal.null ∧
      (handleMessage s (IncomingMessage.newCode code fileName filePath languageId mode)).isError = false ∧
      (handleMessage s (IncomingMessage.newCode code fileName filePath languageId mode)).hasNewResult = false ∧
      (handleMessage s (IncomingMessage.newCode code fileName filePath languageId mode)).activeTab = TabId.code ∧
      (handleMessage s (IncomingMessage.newCode code fileName filePath languageId mode)).code = code := by
  intro s code fileName filePath languageId mode
  exact ⟨rfl, rfl, rfl, rfl, rfl, rfl, rfl⟩

/-- C5 (amended): `ANALYZE_ERROR` clears the result data and sets the error
flag, `ANALYZE_RESULT` stores the payload and clears the error flag; exactly
one of result-present / error-flag is active after `ANALYZE_ERROR`, and
after `ANALYZE_RESULT` whenever its payload is JS-truthy (a `null` payload
leaves both inactive, which is the counterexample to the unrestricted
claim). -/
theorem analyzeResultError_exclusive :
    ∀ (s : DisplayState) (e : String) (p : JSVal),
      (handleMessage s (IncomingMessage.analyzeError e)).resultData = JSVal.null ∧
      (handleMessage s (IncomingMessage.analyzeError e)).isError = true ∧
      exactlyOneActive (handleMessage s (IncomingMessage.analyzeError e)) ∧
      (handleMessage s (IncomingMessage.analyzeResult p)).resultData = p ∧
      (handleMessage s (IncomingMessage.analyzeResult p)).isError = false ∧
      (jsTruthy p = true →
        exactlyOneActive (handleMessage s (IncomingMessage.analyzeResult p))) := by
  intro s e p
  exact ⟨rfl, rfl, Or.inr ⟨rfl, rfl⟩, rfl, rfl, fun hp => Or.inl ⟨hp, rfl⟩⟩

/-- Witness for C5: the truthiness hypothesis discharged at a concrete
truthy payload. -/
theorem analyzeResultError_exclusive_witness :
    exactlyOneActive
      (handleMessage initState (IncomingMessage.analyzeResult (JSVal.obj []))) :=
  (analyzeResultError_exclusive initState "x" (JSVal.obj [])).2.2.2.2.2 rfl

/-- Counterexample for C5 as frozen: after `ANALYZE_ERROR` followed by
`ANALYZE_RESULT` with the (valid JSON) payload `null`, neither the result
data nor the error flag is active. -/
theorem analyzeResultError_exclusive_counterexample :
    ¬ exactlyOneActive
        (handleMessage
          (handleMessage initState (IncomingMessage.analyzeError "x"))
          (IncomingMessage.analyzeResult JSVal.null)) := by
  intro h
  rcases h with ⟨h1, _⟩ | ⟨_, h2⟩
  · exact Bool.noConfusion h1
  · exact Bool.noConfusion h2

/-- C7: triggering analyze with a blank (after trim) code buffer emits no
message, leaves the active tab unchanged, shows the guidance message, and
clears the result and score state. -/
theorem handleAnalyze_blankCode_spec :
    ∀ (avail : Bool) (s : DisplayState), jsTrim s.code = "" →
      (handleAnalyze avail s).2 = [] ∧
      (handleAnalyze avail s).1.activeTab = s.activeTab ∧
      (handleAnalyze avail s).1.resultData = JSVal.null ∧
      (handleAnalyze avail s).1.displayOverallScore = 0 ∧
      (handleAnalyze avail s).1.displayCategoryScores = EMPTY_CATEGORIES ∧
      (handleAnalyze avail s).1.isError = false ∧
      (handleAnalyze avail s).1.hasNewResult = false ∧
      (handleAnalyze avail s).1.resultMessage = "분석할 코드가 없습니다. VS Code에서 코드를 선택 후 실행하거나 왼쪽에 코드를 붙여넣어 주세요." := by
  intro avail s h
  rw [handleAnalyze, if_pos h]
  exact ⟨rfl, rfl, rfl, rfl, rfl, rfl, rfl, rfl⟩

/-- Witness for C7: the blank-code hypothesis discharged at the initial
state, whose code buffer is empty. -/
theorem handleAnalyze_blankCode_spec_witness :
    (handleAnalyze true initState).2 = [] ∧
    (handleAnalyze true initState).1.activeTab = initState.activeTab := by
  have h := handleAnalyze_blankCode_spec true initState rfl
  exact ⟨h.1, h.2.1⟩

/-- C8: triggering analyze with non-blank code but no selected model emits
no message, sets the error and model-error flags, and leaves the active tab
unchanged. -/
theorem handleAnalyze_missingModel_spec :
    ∀ (avail : Bool) (s : DisplayState),
      jsTrim s.code ≠ "" → s.selectedModel = "" →
      (handleAnalyze avail s).2 = [] ∧
      (handleAnalyze avail s).1.isError = true ∧
      (handleAnalyze avail s).1.modelError = true ∧
      (handleAnalyze avail s).1.activeTab = s.activeTab ∧
      (handleAnalyze avail s).1.resultData = JSVal.null ∧
      (handleAnalyze avail s).1.displayOverallScore = 0 ∧
      (handleAnalyze avail s).1.displayCategoryScores = EMPTY_CATEGORIES := by
  intro avail s h1 h2
  rw [handleAnalyze, if_neg h1, if_pos h2]
  exact ⟨rfl, rfl, rfl, rfl, rfl, rfl, rfl⟩

/-- Witness for C8: hypotheses discharged at a state with non-blank code and
no model selected. -/
theorem handleAnalyze_missingModel_spec_witness :
    (handleAnalyze true { initState with code := "x=1" }).2 = [] ∧
    (handleAnalyze true { initState with code := "x=1" }).1.isError = true := by
  have h := handleAnalyze_missingModel_spec true { initState with code := "x=1" }
    (by decide) rfl
  exact ⟨h.1, h.2.1⟩

/-- C10: the load-full-document handler posts nothing and only sets the
status notice while clearing the error and new-result flags, leaving code
buffer, active tab, result data and displayed scores unchanged; moreover the
analyze handler, the only other sender, only ever emits `REQUEST_ANALYZE`,
so the display surface never posts `REQUEST_FULL_DOCUMENT`. -/
theorem loadFullDocument_frame_spec :
    (∀ s : DisplayState,
      (handleLoadFullDocument s).2 = [] ∧
      (handleLoadFullDocument s).1.code = s.code ∧
      (handleLoadFullDocument s).1.activeTab = s.activeTab ∧
      (handleLoadFullDocument s).1.resultData = s.resultData ∧
      (handleLoadFullDocument s).1.displayOverallScore = s.displayOverallScore ∧
      (handleLoadFullDocument s).1.displayCategoryScores = s.displayCategoryScores ∧
      (handleLoadFullDocument s).1.resultMessage = "현재 파일 전체 가져오기는 추후 구현 예정입니다." ∧
      (handleLoadFullDocument s).1.isError = false ∧
      (handleLoadFullDocument s).1.hasNewResult = false) ∧
    (∀ (avail : Bool) (s : DisplayState),
      (handleAnalyze avail s).2 = [] ∨
      (handleAnalyze avail s).2 =
        [OutMessage.requestAnalyze s.code s.filePath s.languageId s.selectedModel]) := by
  constructor
  · intro s
    exact ⟨rfl, rfl, rfl, rfl, rfl, rfl, rfl, rfl, rfl⟩
  · intro avail s
    rw [handleAnalyze]
    split_ifs <;> first
      | exact Or.inl rfl
      | exact Or.inr rfl

/-- Number of animation frames, `Math.max(1, Math.round(duration / frameMs))`
with `duration = 500`, `frameMs = 16`. -/
def animSteps : ℕ := (max 1 (jsRound (500 / 16))).toNat

/-- The smoothstep easing curve `t * t * (3 - 2 * t)` of the score effect. -/
def smoothstep (t : ℚ) : ℚ := t * t * (3 - 2 * t)

/-- The eased interpolation factor at tick `k`:
`smoothstep (Math.min(1, currentStep / steps))`. -/
def easeAt (k : ℕ) : ℚ := smoothstep (min 1 ((k : ℚ) / (animSteps : ℚ)))

/-- The displayed value at tick `k` of one animation run toward `target`:
`Math.round(target * ease)`. -/
def animSample (target : ℤ) (k : ℕ) : ℤ := jsRound ((target : ℚ) * easeAt k)

/-- Overall target score computed by the effect:
`clampScore(resultData.quality_score)`. -/
def targetOverall (rd : JSVal) : ℤ := clampScore (jsGet rd "quality_score")

/-- `resultData.scores_by_category ?? \x7b\x7d` from the effect. -/
def scoresByCategory (rd : JSVal) : JSVal :=
  match jsGet rd "scores_by_category" with
  | JSVal.null => JSVal.obj []
  | JSVal.undef => JSVal.obj []
  | v => v

/-- Per-category target score computed by the effect. -/
def targetCategory (rd : JSVal) (key : String) : ℤ :=
  clampScore (jsGet (scoresByCategory rd) key)

/-- The values successively assigned to one displayed score by a full
animation run: the initial reset to 0, then one sample per interval tick;
the interval clears itself at tick `animSteps`, where `t` reaches 1. -/
def animRun (target : ℤ) : List ℤ :=
  0 :: (List.range animSteps).map (fun k => animSample target (k + 1))

/-- The values assigned to the displayed overall score by one run of the
score effect after `resultData` changes to `rd` (a falsy `rd` only resets). -/
def scoreEffectOverallRun (rd : JSVal) : List ℤ :=
  if jsTruthy rd = false then [0] else animRun (targetOverall rd)

/-- The values assigned to one displayed category score by one run of the
score effect after `resultData` changes to `rd`. -/
def scoreEffectCategoryRun (rd : JSVal) (key : String) : List ℤ :=
  if jsTruthy rd = false then [0] else animRun (targetCategory rd key)

/-- The frame count evaluates to 31. -/
theorem animSteps_eq : animSteps = 31 := by
  have h : jsRound (500 / 16) = 31 := by
    rw [jsRound, Int.floor_eq_iff]
    norm_num
  rw [animSteps, h]
  rfl

/-- smoothstep is monotone on `[0, 1]`. -/
theorem smoothstep_mono (a b : ℚ) (h0 : 0 ≤ a) (hab : a ≤ b) (h1 : b ≤ 1) :
    smoothstep a ≤ smoothstep b := by
  rw [smoothstep, smoothstep]
  nlinarith [mul_nonneg h0 (sub_nonneg.2 hab), mul_nonneg (h0.trans hab) (sub_nonneg.2 hab)]

/-- smoothstep maps `[0, 1]` into `[0, 1]`. -/
theorem smoothstep_bounds (t : ℚ) (h0 : 0 ≤ t) (h1 : t ≤ 1) :
    0 ≤ smoothstep t ∧ smoothstep t ≤ 1 := by
  rw [smoothstep]
  constructor
  · nlinarith
  · nlinarith [sq_nonneg (1 - t)]

/-- The eased factor lies in `[0, 1]`. -/
theorem easeAt_bounds (k : ℕ) : 0 ≤ easeAt k ∧ easeAt k ≤ 1 := by
  rw [easeAt]
  refine smoothstep_bounds _ (le_min ?_ ?_) (min_le_left _ _)
  · norm_num
  · positivity

/-- The eased factor is monotone in the tick index. -/
theorem easeAt_mono {j k : ℕ} (h : j ≤ k) : easeAt j ≤ easeAt k := by
  rw [easeAt, easeAt]
  have hdiv : (j : ℚ) / (animSteps : ℚ) ≤ (k : ℚ) / (animSteps : ℚ) := by
    have hjk : (j : ℚ) ≤ (k : ℚ) := by exact_mod_cast h
    gcongr
  have h0 : 0 ≤ min 1 ((j : ℚ) / (animSteps : ℚ)) := le_min (by norm_num) (by positivity)
  exact smoothstep_mono _ _ h0 (min_le_min le_rfl hdiv) (min_le_left _ _)

/-- The eased factor reaches exactly 1 at the final tick. -/
theorem easeAt_final : easeAt animSteps = 1 := by
  rw [easeAt, animSteps_eq]
  norm_num [smoothstep]

/-- Animation samples toward a target in `[0, 100]` stay in `[0, 100]`. -/
theorem animSample_bounds (target : ℤ) (h0 : 0 ≤ target) (h1 : target ≤ 100)
    (k : ℕ) : 0 ≤ animSample target k ∧ animSample target k ≤ 100 := by
  obtain ⟨he0, he1⟩ := easeAt_bounds k
  have ht0 : (0 : ℚ) ≤ (target : ℚ) := by exact_mod_cast h0
  have ht1 : (target : ℚ) ≤ 100 := by exact_mod_cast h1
  constructor
  · exact jsRound_nonneg _ (mul_nonneg ht0 he0)
  · refine jsRound_le_100 _ ?_
    calc (target : ℚ) * easeAt k ≤ (target : ℚ) * 1 := by
          exact mul_le_mul_of_nonneg_left he1 ht0
      _ ≤ 100 := by linarith

/-- Animation samples toward a nonnegative target are monotone in the tick
index. -/
theorem animSample_mono (target : ℤ) (h0 : 0 ≤ target) {j k : ℕ} (h : j ≤ k) :
    animSample target j ≤ animSample target k := by
  have ht0 : (0 : ℚ) ≤ (target : ℚ) := by exact_mod_cast h0
  exact jsRound_mono _ _ (mul_le_mul_of_nonneg_left (easeAt_mono h) ht0)

/-- The final animation sample equals the target exactly. -/
theorem animSample_final (target : ℤ) : animSample target animSteps = target := by
  rw [animSample, easeAt_final, mul_one, jsRound_intCast]

/-- C3: every displayed score value (overall and per category) produced by
the animation effect lies in `[0, 100]`; within one run the sampled sequence
is monotonically non-decreasing in the tick index and its final sample
equals the clamped target; and every effect run starts by resetting the
displayed value to 0, for any new `resultData` reference including falsy
ones such as `null`. -/
theorem scoreAnimation_spec :
    ∀ (rd : JSVal) (key : String) (k : ℕ),
      (0 ≤ animSample (targetOverall rd) k ∧ animSample (targetOverall rd) k ≤ 100) ∧
      (0 ≤ animSample (targetCategory rd key) k ∧ animSample (targetCategory rd key) k ≤ 100) ∧
      (∀ j : ℕ, j ≤ k →
        animSample (targetOverall rd) j ≤ animSample (targetOverall rd) k ∧
        animSample (targetCategory rd key) j ≤ animSample (targetCategory rd key) k) ∧
      animSample (targetOverall rd) animSteps = targetOverall rd ∧
      animSample (targetCategory rd key) animSteps = targetCategory rd key ∧
      (scoreEffectOverallRun rd).head? = some 0 ∧
      (scoreEffectCategoryRun rd key).head? = some 0 ∧
      (∀ x ∈ scoreEffectOverallRun rd, 0 ≤ x ∧ x ≤ 100) ∧
      (∀ x ∈ scoreEffectCategoryRun rd key, 0 ≤ x ∧ x ≤ 100) := by
  intro rd key k
  obtain ⟨ho0, ho1⟩ := clampScore_bounds (jsGet rd "quality_score")
  obtain ⟨hc0, hc1⟩ := clampScore_bounds (jsGet (scoresByCategory rd) key)
  have hmem : ∀ (t : ℤ), 0 ≤ t → t ≤ 100 → ∀ x ∈ animRun t, 0 ≤ x ∧ x ≤ 100 := by
    intro t h0 h1 x hx
    rw [animRun] at hx
    rcases List.mem_cons.1 hx with hx0 | hxm
    · subst hx0
      exact ⟨le_refl 0, by norm_num⟩
    · obtain ⟨k2, _, rfl⟩ := List.mem_map.1 hxm
      exact animSample_bounds t h0 h1 _
  have hheadO : (scoreEffectOverallRun rd).head? = some 0 := by
    rw [scoreEffectOverallRun]
    split_ifs <;> rfl
  have hheadC : (scoreEffectCategoryRun rd key).head? = some 0 := by
    rw [scoreEffectCategoryRun]
    split_ifs <;> rfl
  have hmemO : ∀ x ∈ scoreEffectOverallRun rd, 0 ≤ x ∧ x ≤ 100 := by
    rw [scoreEffectOverallRun]
    split_ifs
    · intro x hx
      rcases List.mem_singleton.1 hx with rfl
      exact ⟨le_refl 0, by norm_num⟩
    · exact hmem _ ho0 ho1
  have hmemC : ∀ x ∈ scoreEffectCategoryRun rd key, 0 ≤ x ∧ x ≤ 100 := by
    rw [scoreEffectCategoryRun]
    split_ifs
    · intro x hx
      rcases List.mem_singleton.1 hx with rfl
      exact ⟨le_refl 0, by norm_num⟩
    · exact hmem _ hc0 hc1
  exact ⟨animSample_bounds _ ho0 ho1 k, animSample_bounds _ hc0 hc1 k,
    fun j hj => ⟨animSample_mono _ ho0 hj, animSample_mono _ hc0 hj⟩,
    animSample_final _, animSample_final _, hheadO, hheadC, hmemO, hmemC⟩

/-- Witness for C3: monotonicity and membership hypotheses discharged at
concrete ticks and at the reset value of a run for a `null` result. -/
theorem scoreAnimation_spec_witness :
    animSample (targetOverall JSVal.null) 0 ≤ animSample (targetOverall JSVal.null) 1 ∧
    (0 ≤ (0 : ℤ) ∧ (0 : ℤ) ≤ 100) := by
  have h := scoreAnimation_spec JSVal.null "bug" 1
  refine ⟨(h.2.2.1 0 (by norm_num)).1, ?_⟩
  refine h.2.2.2.2.2.2.2.1 0 ?_
  rw [show scoreEffectOverallRun JSVal.null = [0] from rfl]
  exact List.mem_singleton.2 rfl

/-- The `REQUEST_ANALYZE` payload as destructured by the host controller
(`message.payload ?? \x7b\x7d`; every field may be absent). -/
structure AnalyzePayload where
  code : Option String
  filePath : Option String
  languageId : Option String
  model : Option String

/-- The JSON body of the outbound HTTP POST to the review endpoint. -/
structure RequestBody where
  code_snippet : String
  language : String
  file_path : String
  model : Option String
deriving DecidableEq

/-- Messages the host controller posts to the webview. -/
inductive HostMsg where
  | newCode (code fileName filePath languageId : String) (mode : CodeMode)
  | analyzeProgress (payload : String)
  | analyzeResult (payload : JSVal)
  | analyzeError (payload : String)

/-- Observable actions of the host controller, in program order. -/
inductive HostAction where
  | post (m : HostMsg)
  | httpPost (body : RequestBody)
  | toast (msg : String)
  | createPanel
  | revealPanel

/-- Is the action the outbound HTTP POST? -/
def isHttpPost : HostAction → Bool
  | HostAction.httpPost _ => true
  | _ => false

/-- A JS exception value as tested by `error instanceof Error`. -/
inductive Thrown where
  | errObj (msg : String)
  | nonError

/-- The generic fallback text used when a non-`Error` value is thrown. -/
def fallbackErrorMessage : String := "서버 요청 중 알 수 없는 오류가 발생했습니다."

/-- `error instanceof Error ? error.message : <fallback>`. -/
def thrownMessage : Thrown → String
  | Thrown.errObj m => m
  | Thrown.nonError => fallbackErrorMessage

/-- Outcome of the `fetch` call and subsequent body parse: either the fetch
rejected, or a response arrived with a status, raw body text, and a JSON
parse outcome for the body. -/
inductive FetchOutcome where
  | failed (t : Thrown)
  | response (status : ℕ) (bodyText : String) (json : Except Thrown JSVal)

/-- The `REQUEST_ANALYZE` branch of `onDidReceiveMessage` in the host
controller: validate the code, post a progress message, perform one HTTP
POST, then relay the outcome.  `ctxFilePath` and `ctxLanguageId` are the
closure variables captured from the command invocation, used as defaults. -/
def handleRequestAnalyze (ctxFilePath ctxLanguageId : String)
    (payload : AnalyzePayload) (fetch : FetchOutcome) : List HostAction :=
  let codeSnippet := payload.code.getD ""
  if jsTrim codeSnippet = "" then
    [HostAction.post (HostMsg.analyzeError "분석할 코드가 비어 있습니다.")]
  else
    let body : RequestBody :=
      { code_snippet := codeSnippet,
        language := payload.languageId.getD ctxLanguageId,
        file_path := payload.filePath.getD ctxFilePath,
        model := match payload.model with
                 | some m => if m = "" then none else some m
                 | none => none }
    HostAction.post (HostMsg.analyzeProgress "DKMV LLM에 코드 분석을 요청 중입니다...") ::
    HostAction.httpPost body ::
    (match fetch with
     | FetchOutcome.failed t =>
         [HostAction.post (HostMsg.analyzeError (thrownMessage t))]
     | FetchOutcome.response status text json =>
         if status < 200 ∨ 299 < status then
           [HostAction.post (HostMsg.analyzeError
             (thrownMessage (Thrown.errObj ("HTTP " ++ toString status ++ ": " ++ text))))]
         else
           match json with
           | Except.ok data => [HostAction.post (HostMsg.analyzeResult data)]
           | Except.error t => [HostAction.post (HostMsg.analyzeError (thrownMessage t))])

/-- The editor facts the host controller reads: full document text, the
selected text when the selection is nonempty, and the document metadata. -/
structure EditorState where
  docText : String
  selection : Option String
  fsPath : String
  languageId : String
  fileName : String

/-- The `dkmv.analyzeSelection` command body: toast when no editor is
active or the extracted code is blank; otherwise create or reveal the panel
and post `NEW_CODE`. -/
def analyzeSelectionCommand (editor : Option EditorState) (panelExists : Bool) :
    List HostAction :=
  match editor with
  | none => [HostAction.toast "열려 있는 파일이 없습니다."]
  | some ed =>
      let code := match ed.selection with
                  | some sel => sel
                  | none => ed.docText
      if jsTrim code = "" then [HostAction.toast "분석할 코드가 비어 있습니다."]
      else
        (if panelExists then [HostAction.revealPanel] else [HostAction.createPanel]) ++
        [HostAction.post (HostMsg.newCode code ed.fileName ed.fsPath ed.languageId
          (match ed.selection with
           | some _ => CodeMode.selection
           | none => CodeMode.document))]

/-- The `REQUEST_FULL_DOCUMENT` branch of `onDidReceiveMessage`: with no
active editor or a blank document it posts `ANALYZE_ERROR`; otherwise it
posts the full document as `NEW_CODE` tagged `document`. -/
def handleRequestFullDocument (editor : Option EditorState) : List HostAction :=
  match editor with
  | none => [HostAction.post (HostMsg.analyzeError "열려 있는 파일이 없습니다.")]
  | some ed =>
      if jsTrim ed.docText = "" then
        [HostAction.post (HostMsg.analyzeError "현재 파일이 비어 있습니다.")]
      else
        [HostAction.post (HostMsg.newCode ed.docText ed.fileName ed.fsPath
          ed.languageId CodeMode.document)]

/-- C2: for every `REQUEST_ANALYZE` message, blank code yields exactly one
`ANALYZE_ERROR` reply and no HTTP call; non-blank code yields exactly one
HTTP POST whose body carries the code snippet, language and file path plus
the model when a non-empty one was provided; a non-2xx status is answered
with `ANALYZE_ERROR` carrying the status code and the raw body text, a 2xx
status with `ANALYZE_RESULT` carrying the parsed body unmodified, and an
exception with `ANALYZE_ERROR` carrying the exception message or the
generic fallback. -/
theorem hostRequestAnalyze_spec :
    ∀ (ctxFilePath ctxLanguageId : String) (payload : AnalyzePayload)
      (fetch : FetchOutcome),
      (jsTrim (payload.code.getD "") = "" →
        handleRequestAnalyze ctxFilePath ctxLanguageId payload fetch =
          [HostAction.post (HostMsg.analyzeError "분석할 코드가 비어 있습니다.")]) ∧
      (jsTrim (payload.code.getD "") ≠ "" →
        (handleRequestAnalyze ctxFilePath ctxLanguageId payload fetch).countP isHttpPost = 1 ∧
        HostAction.httpPost
          { code_snippet := payload.code.getD "",
            language := payload.languageId.getD ctxLanguageId,
            file_path := payload.filePath.getD ctxFilePath,
            model := match payload.model with
                     | some m => if m = "" then none else some m
                     | none => none } ∈
          handleRequestAnalyze ctxFilePath ctxLanguageId payload fetch ∧
        (∀ t, fetch = FetchOutcome.failed t →
          (handleRequestAnalyze ctxFilePath ctxLanguageId payload fetch).getLast? =
            some (HostAction.post (HostMsg.analyzeError (thrownMessage t)))) ∧
        (∀ (status : ℕ) (text : String) (json : Except Thrown JSVal),
          fetch = FetchOutcome.response status text json →
          ((status < 200 ∨ 299 < status) →
            (handleRequestAnalyze ctxFilePath ctxLanguageId payload fetch).getLast? =
              some (HostAction.post (HostMsg.analyzeError
                ("HTTP " ++ toString status ++ ": " ++ text)))) ∧
          (200 ≤ status → status ≤ 299 →
            (∀ data, json = Except.ok data →
              (handleRequestAnalyze ctxFilePath ctxLanguageId payload fetch).getLast? =
                some (HostAction.post (HostMsg.analyzeResult data))) ∧
            (∀ t, json = Except.error t →
              (handleRequestAnalyze ctxFilePath ctxLanguageId payload fetch).getLast? =
                some (HostAction.post (HostMsg.analyzeError (thrownMessage t))))))) ∧
      thrownMessage Thrown.nonError = fallbackErrorMessage ∧
      (∀ m, thrownMessage (Thrown.errObj m) = m) := by
  intro ctxFilePath ctxLanguageId payload fetch
  refine ⟨?_, ?_, rfl, fun m => rfl⟩
  · intro h
    simp only [handleRequestAnalyze]
    rw [if_pos h]
  · intro h
    simp only [handleRequestAnalyze]
    rw [if_neg h]
    refine ⟨?_, List.mem_cons_of_mem _ (List.mem_cons_self _ _), ?_, ?_⟩
    · cases fetch with
      | failed t => simp [List.countP_cons, isHttpPost]
      | response status text json =>
          by_cases hs : status < 200 ∨ 299 < status
          · simp [hs, List.countP_cons, isHttpPost]
          · rcases json with data | t <;> simp [hs, List.countP_cons, isHttpPost]
    · intro t ht
      subst ht
      rfl
    · intro status text json hr
      subst hr
      constructor
      · intro hbad
        simp [hbad, thrownMessage]
      · intro h2 h3
        have hok : ¬ (status < 200 ∨ 299 < status) := by omega
        refine ⟨?_, ?_⟩
        · intro data hj
          subst hj
          simp [hok]
        · intro t hj
          subst hj
          simp [hok]

/-- Witness for C2: the blank branch and the non-2xx branch evaluated on
concrete inputs. -/
theorem hostRequestAnalyze_spec_witness :
    handleRequestAnalyze "f.py" "python"
        { code := none, filePath := none, languageId := none, model := none }
        (FetchOutcome.failed Thrown.nonError) =
      [HostAction.post (HostMsg.analyzeError "분석할 코드가 비어 있습니다.")] ∧
    (handleRequestAnalyze "f.py" "python"
        { code := some "x=1", filePath := none, languageId := none,
          model := some "gpt-4.1-mini" }
        (FetchOutcome.response 500 "internal error"
          (Except.error Thrown.nonError))).getLast? =
      some (HostAction.post (HostMsg.analyzeError
        ("HTTP " ++ toString 500 ++ ": " ++ "internal error"))) := by
  constructor
  · exact (hostRequestAnalyze_spec "f.py" "python" _ _).1 rfl
  · exact (((hostRequestAnalyze_spec "f.py" "python" _ _).2.1 (by decide)).2.2.2
      500 "internal error" _ rfl).1 (by omega)

/-- C6 (amended): in the `analyzeSelection` command path, the no-active-
editor condition is reported through a one-shot toast and no protocol
message at all; in the `REQUEST_FULL_DOCUMENT` handler the same condition is
instead reported by posting `ANALYZE_ERROR` to the webview, with no toast. -/
theorem noEditor_notification_spec :
    ∀ panelExists : Bool,
      analyzeSelectionCommand none panelExists =
        [HostAction.toast "열려 있는 파일이 없습니다."] ∧
      handleRequestFullDocument none =
        [HostAction.post (HostMsg.analyzeError "열려 있는 파일이 없습니다.")] :=
  fun _ => ⟨rfl, rfl⟩

/-- Counterexample for C6 as frozen: when the no-active-editor condition
occurs in the `REQUEST_FULL_DOCUMENT` handler, the entire action trace is a
single `ANALYZE_ERROR` protocol message — no toast is shown. -/
theorem noEditor_notification_counterexample :
    handleRequestFullDocument none =
      [HostAction.post (HostMsg.analyzeError "열려 있는 파일이 없습니다.")] := rfl
